import Mathlib

/-!
# Verification of the rust-webm muxer FFI layer (`src/sys/ffi.cpp`)

This file gives a shallow embedding of the C shim in `src/sys/ffi.cpp`,
which wraps libwebm's `mkvmuxer` behind a C ABI, and proves the frozen
claims about it.

Modelling conventions:
* C callback pointers (`WriteFun`, `GetPositionFun`, `SetPositionFun`,
  `ElementStartNotifyFun`) become `Option` of Lean functions; a `none`
  models a null pointer.  The `void* user_data` argument threaded to every
  callback is absorbed into the Lean closure (a C pair
  (function pointer, user_data) is one Lean function).
* Buffers (`const void* buf, size_t len` / `const uint8_t* data, int len`)
  become `List Nat` of bytes.
* C pointers to heap objects (`MuxSegmentPtr`, `MuxTrackPtr`, out
  parameters) become `Option` values or explicit state passed in and out;
  an out parameter `uint64_t* id_out` is modelled by passing the current
  contents of the pointed-to cell in and returning its new contents.
* Calls made by the muxer into the user's callbacks are recorded in an
  explicit event trace (`CallEvent`), so that "invokes nothing" is a
  provable statement about the trace.
* Parts of libwebm (`mkvmuxer::Segment`, `mkvmuxer::Track`) that the shim
  calls but that are not part of this repository's sources are modelled
  from the spec; each such definition carries a doc comment starting with
  `Modelled from the spec:`.
-/

/-! ## The sink callback types (FfiMkvWriter's function-pointer typedefs) -/

/-- `typedef bool (*WriteFun)(void*, const void*, size_t)`: receives the
buffer to write, returns success. -/
def WriteFun : Type := List Nat → Bool

/-- `typedef int64_t (*GetPositionFun)(void*)`: returns the current byte
position of the sink. -/
def GetPositionFun : Type := Unit → Int

/-- `typedef bool (*SetPositionFun)(void*, uint64_t)`: seeks to an absolute
position, returns success. -/
def SetPositionFun : Type := Nat → Bool

/-- `typedef void (*ElementStartNotifyFun)(void*, uint64_t, int64_t)`:
observation hook, called with an element id and a stream offset. -/
def ElementStartNotifyFun : Type := Nat → Int → Unit

/-- One call made by the muxer into a user-supplied callback.  The trace of
these events is the observable effect of the writer on the outside world. -/
inductive CallEvent : Type
  | writeCall (buf : List Nat)
  | getPositionCall
  | setPositionCall (pos : Int)
  | elementStartNotifyCall (element_id : Nat) (position : Int)

/-- The `FfiMkvWriter` struct: four callback pointers (null modelled as
`none`).  `user_data` is absorbed into the closures. -/
structure FfiMkvWriter : Type where
  write_ : Option WriteFun := none
  get_position_ : Option GetPositionFun := none
  set_position_ : Option SetPositionFun := none
  element_start_notify_ : Option ElementStartNotifyFun := none

namespace FfiMkvWriter

/-- `FfiMkvWriter::Position(int64 pos)` (the seek entry point):
`if(set_position_ == nullptr) return 1;` then calls the callback and maps
its `bool` to `0`/`1`.  Returns the status code and the updated call
trace. -/
def PositionSet (w : FfiMkvWriter) (pos : Int) (trace : List CallEvent) :
    Nat × List CallEvent :=
  match w.set_position_ with
  | none => (1, trace)
  | some f =>
    if f pos.toNat then (0, trace ++ [CallEvent.setPositionCall pos])
    else (1, trace ++ [CallEvent.setPositionCall pos])

/-- `FfiMkvWriter::Seekable()`: `return set_position_ != nullptr;`. -/
def Seekable (w : FfiMkvWriter) : Bool :=
  w.set_position_.isSome

/-- `FfiMkvWriter::ElementStartNotify(element_id, position)`:
`if(element_start_notify_ == nullptr) return;` else invoke the hook.
The function returns no value; its only possible effect is the recorded
callback invocation, so it returns the updated trace. -/
def ElementStartNotify (w : FfiMkvWriter) (element_id : Nat) (position : Int)
    (trace : List CallEvent) : List CallEvent :=
  match w.element_start_notify_ with
  | none => trace
  | some f =>
    let _ := f element_id position
    trace ++ [CallEvent.elementStartNotifyCall element_id position]

end FfiMkvWriter

/-- `mux_new_writer(write, get_position, set_position, element_start_notify,
user_data)`: returns null when either mandatory callback (`write`,
`get_position`) is null, otherwise allocates an `FfiMkvWriter` holding all
four callbacks. -/
def mux_new_writer (write : Option WriteFun) (get_position : Option GetPositionFun)
    (set_position : Option SetPositionFun)
    (element_start_notify : Option ElementStartNotifyFun) : Option FfiMkvWriter :=
  if write.isNone || get_position.isNone then
    none
  else
    some { write_ := write, get_position_ := get_position,
           set_position_ := set_position,
           element_start_notify_ := element_start_notify }

/-! ## The codec identifier constants of ffi.cpp -/

/-- `const uint32_t OPUS_CODEC_ID = 0;` (audio). -/
def OPUS_CODEC_ID : Nat := 0
/-- `const uint32_t VORBIS_CODEC_ID = 1;` (audio). -/
def VORBIS_CODEC_ID : Nat := 1

/-- `const uint32_t VP8_CODEC_ID = 0;` (video). -/
def VP8_CODEC_ID : Nat := 0
/-- `const uint32_t VP9_CODEC_ID = 1;` (video). -/
def VP9_CODEC_ID : Nat := 1
/-- `const uint32_t AV1_CODEC_ID = 2;` (video). -/
def AV1_CODEC_ID : Nat := 2

/-- Modelled from the spec: libwebm's fixed codec-ID string constant
`mkvmuxer::Tracks::kVp8CodecId` (the constant itself lives in libwebm, not
in this repository's sources). -/
def kVp8CodecId : String := "V_VP8"
/-- Modelled from the spec: `mkvmuxer::Tracks::kVp9CodecId`. -/
def kVp9CodecId : String := "V_VP9"
/-- Modelled from the spec: `mkvmuxer::Tracks::kAv1CodecId`. -/
def kAv1CodecId : String := "V_AV1"
/-- Modelled from the spec: `mkvmuxer::Tracks::kOpusCodecId`. -/
def kOpusCodecId : String := "A_OPUS"
/-- Modelled from the spec: `mkvmuxer::Tracks::kVorbisCodecId`. -/
def kVorbisCodecId : String := "A_VORBIS"

/-! ## The segment and track state (libwebm objects, modelled from the spec)

The shim manipulates `mkvmuxer::Segment` and `mkvmuxer::Track` objects
whose code is not part of this repository's sources; the state they carry
and the operations the shim calls on them are modelled from the spec
(§3 data model, §4.2 track registry, §4.3 segment controller, §4.4
cluster/frame writer). -/

/-- Modelled from the spec: the per-track state of a `mkvmuxer::Track`
that the shim's entry points touch.  `number` is the 1-based track number
(0 is invalid/unassigned); `framesWritten` and `lastTicks` are the
per-track bookkeeping the frame writer keeps (spec §4.4 step 5).
Kind-specific geometry (width/height, sample rate/channels) is carried by
no claim and is omitted. -/
structure Track : Type where
  number : Nat
  isVideo : Bool
  codec_id : String
  codecPrivate : List Nat
  framesWritten : Nat
  lastTicks : Option Nat
deriving Repr, DecidableEq

/-- Modelled from the spec: `Track::SetCodecPrivate` of the track
registry (§4.2): the codec-private blob "may be set any time before the
track's first frame is written" and setting it "after at least one frame
has been written for that track always fails with `TrackAlreadyStreaming`"
(§8).  Returns `none` on failure. -/
def Track.SetCodecPrivate (t : Track) (data : List Nat) : Option Track :=
  if t.framesWritten ≠ 0 then none
  else some { t with codecPrivate := data }

/-- Modelled from the spec: the `mkvmuxer::Segment` state the shim's entry
points touch: the track registry (insertion order significant),
whether `Init` ran, whether `Finalize` ran, the timecode scale
(ns per tick, default 1,000,000), the persisted duration field
(`duration_ticks : Option<u64>`, set at finalize or by `set_duration`),
and the highest timestamp (in ticks) observed across all tracks. -/
structure Segment : Type where
  tracks : List Track
  inited : Bool
  finalized : Bool
  timecodeScale : Nat
  durationTicks : Option Nat
  maxObservedTicks : Nat
deriving Repr, DecidableEq

/-- The errors of the spec's taxonomy (§7) that the claims name. -/
inductive MuxError : Type
  | UnknownTrack
  | TrackAlreadyStreaming
  | SegmentNotInited
  | SegmentFinalized
  | NonMonotonicTimestamp
  | AlreadyInited
  | AlreadyFinalized
deriving Repr, DecidableEq

namespace Segment

/-- Modelled from the spec: `mkvmuxer::Segment::Segment()` — a fresh
segment with no tracks, not yet initialized via `Init`, the default
timecode scale of 1,000,000 ns per tick, and no duration set. -/
def new : Segment :=
  { tracks := [], inited := false, finalized := false,
    timecodeScale := 1000000, durationTicks := none, maxObservedTicks := 0 }

/-- Modelled from the spec: `Segment::Init(writer)` binds the sink and
emits the fixed top-level header once; "fails with `AlreadyInitialized`
if called twice" (§4.3). -/
def Init (seg : Segment) : Bool × Segment :=
  if seg.inited then (false, seg)
  else (true, { seg with inited := true })

/-- Modelled from the spec: `Segment::GetTrackByNumber(number)` — looks
the track number up in the registry; null when no track has that number. -/
def GetTrackByNumber (seg : Segment) (number : Nat) : Option Track :=
  seg.tracks.find? (fun t => t.number == number)

/-- Whether some registered track carries this number.  (Helper for
stating the claims; agrees with `GetTrackByNumber` being non-null.) -/
def hasTrack (seg : Segment) (number : Nat) : Bool :=
  seg.tracks.any (fun t => t.number == number)

/-- Replace the track numbered `number` by the result of `f` on it
(a C `Track*` pointer write, seen from the owning segment). -/
def updateTrack (seg : Segment) (number : Nat) (f : Track → Track) : Segment :=
  { seg with tracks := seg.tracks.map (fun t => if t.number == number then f t else t) }

/-- Modelled from the spec: `Segment::set_duration(d)` stores `d` in the
segment-info duration field that finalization persists. -/
def set_duration (seg : Segment) (d : Nat) : Segment :=
  { seg with durationTicks := some d }

/-- Modelled from the spec: `Segment::Finalize()` — "closes any open
Cluster, computes total duration from either the override or the highest
timestamp observed across all tracks" and persists it; "a second call
fails with `AlreadyFinalized`" (§4.3).  If `set_duration` already stored
an override, that value stands; otherwise the duration becomes the highest
observed tick count. -/
def Finalize (seg : Segment) : Bool × Segment :=
  if seg.finalized then (false, seg)
  else
    (true, { seg with finalized := true,
                      durationTicks := some (seg.durationTicks.getD seg.maxObservedTicks) })

/-- The next unused track number: one past the largest registered number
(so it collides with no registered track). -/
def nextTrackNumber (seg : Segment) : Nat :=
  (seg.tracks.map Track.number).foldr max 0 + 1

/-- Modelled from the spec: the track-number allocation shared by
`Segment::AddVideoTrack` / `Segment::AddAudioTrack` (§4.2, §6): a
`number` hint of 0 requests auto-assignment of the next unused number; a
negative hint, or an explicit hint already in use, fails.  Returns the
allocated number (0 on failure, as in libwebm) and the updated registry;
on failure the registry is unchanged. -/
def addTrack (seg : Segment) (number : Int) (isVideo : Bool) : Nat × Segment :=
  if number < 0 then (0, seg)
  else
    let n : Nat := number.toNat
    if n != 0 && seg.hasTrack n then (0, seg)
    else
      let num := if n = 0 then seg.nextTrackNumber else n
      let t : Track :=
        { number := num, isVideo := isVideo, codec_id := "",
          codecPrivate := [], framesWritten := 0, lastTicks := none }
      (num, { seg with tracks := seg.tracks ++ [t] })

/-- Modelled from the spec: `Segment::AddVideoTrack(width, height,
number)`.  The geometry is carried by no claim; only the allocation
matters here. -/
def AddVideoTrack (seg : Segment) (width height : Int) (number : Int) :
    Nat × Segment :=
  let _ := width
  let _ := height
  seg.addTrack number true

/-- Modelled from the spec: `Segment::AddAudioTrack(sample_rate, channels,
number)`. -/
def AddAudioTrack (seg : Segment) (sample_rate channels : Int) (number : Int) :
    Nat × Segment :=
  let _ := sample_rate
  let _ := channels
  seg.addTrack number false

/-- Modelled from the spec: `Segment::AddFrame` (§4.4).  Step 1: fails
with `UnknownTrack` if `track_number` is not registered,
`SegmentNotInitialized` if `Init` was never called, `SegmentFinalized` if
finalize already ran — checked in that order.  Step 2: converts the
timestamp to ticks by floor division and fails with
`NonMonotonicTimestamp` if it is less than the track's last timestamp.
Step 5: updates per-track last-timestamp bookkeeping and the overall
observed-duration bookkeeping used by finalize.  (Steps 3–4, the cluster
boundary policy and the block bytes sent to the sink, affect only the sink
byte stream and are carried by no claim.)  Returns the spec-level
`Result` together with the segment state after the call; on every failure
the state is returned unchanged — no frame is written. -/
def AddFrame (seg : Segment) (payload : List Nat) (track_number : Nat)
    (timestamp_ns : Nat) (keyframe : Bool) : Except MuxError Unit × Segment :=
  let _ := payload
  let _ := keyframe
  match seg.GetTrackByNumber track_number with
  | none => (Except.error MuxError.UnknownTrack, seg)
  | some t =>
    if !seg.inited then (Except.error MuxError.SegmentNotInited, seg)
    else if seg.finalized then (Except.error MuxError.SegmentFinalized, seg)
    else
      let ticks := timestamp_ns / seg.timecodeScale
      if ticks < t.lastTicks.getD 0 then
        (Except.error MuxError.NonMonotonicTimestamp, seg)
      else
        (Except.ok (),
         { (seg.updateTrack track_number
              (fun u => { u with framesWritten := u.framesWritten + 1,
                                 lastTicks := some ticks })) with
           maxObservedTicks := max seg.maxObservedTicks ticks })

end Segment

/-! ## The segment-level FFI entry points of ffi.cpp -/

/-- `mux_new_segment()`: `return new mkvmuxer::Segment();`. -/
def mux_new_segment : Segment := Segment.new

/-- `mux_initialize_segment(segment, writer)`: `return segment->Init(writer);`
(the identifier is shortened here; the bound writer plays no role in the
claims, so only the segment state transition is kept). -/
def mux_init_segment (segment : Segment) : Bool × Segment :=
  segment.Init

/-- `mux_finalize_segment(segment, timeCodeDuration)`:
`if (timeCodeDuration) { segment->set_duration(timeCodeDuration); }
return segment->Finalize();` — a zero `timeCodeDuration` skips the
`set_duration` call. -/
def mux_finalize_segment (segment : Segment) (timeCodeDuration : Nat) :
    Bool × Segment :=
  let segment := if timeCodeDuration ≠ 0 then segment.set_duration timeCodeDuration
                 else segment
  segment.Finalize

/-- Modelled from the spec: the caller-facing finalization API
`finalize(duration_override_ticks: Option<u64>) -> Result` (§6).  The
binding layer above the shim is not among this repository's sources; the
shim's `uint64_t timeCodeDuration` parameter encodes the absent override
as 0 (that is what its `if (timeCodeDuration)` test distinguishes), so
`none` is passed down as 0. -/
def finalize (segment : Segment) (duration_override_ticks : Option Nat) :
    Bool × Segment :=
  mux_finalize_segment segment (duration_override_ticks.getD 0)

/-- `mux_segment_set_codec_private(segment, number, data, len)`: looks the
track up by number (false when absent), then calls
`track->SetCodecPrivate(data, len)` (false when that fails); true
otherwise.  Returns the C `bool` and the segment state after the call. -/
def mux_segment_set_codec_private (segment : Segment) (number : Nat)
    (data : List Nat) : Bool × Segment :=
  match segment.GetTrackByNumber number with
  | none => (false, segment)
  | some track =>
    match track.SetCodecPrivate data with
    | none => (false, segment)
    | some track' => (true, segment.updateTrack number (fun _ => track'))

/-- Modelled from the spec: the caller-facing
`set_codec_private(handle, bytes) -> Result` API (§4.2): "fails with
`UnknownTrack` if the handle is stale, `TrackAlreadyStreaming` if any
frame has already been written for that track"; otherwise it succeeds and
stores the blob.  Same state transition as `mux_segment_set_codec_private`,
with the spec's error discrimination instead of the shim's bare `bool`. -/
def set_codec_private (segment : Segment) (number : Nat) (data : List Nat) :
    Except MuxError Unit × Segment :=
  match segment.GetTrackByNumber number with
  | none => (Except.error MuxError.UnknownTrack, segment)
  | some track =>
    if track.framesWritten ≠ 0 then
      (Except.error MuxError.TrackAlreadyStreaming, segment)
    else
      (Except.ok (),
       segment.updateTrack number (fun t => { t with codecPrivate := data }))

/-- The `switch(codec_id)` of `mux_segment_add_video_track`: the value of
`codec_id_str` it computes, with `none` for the `default:` failure case. -/
def videoCodecStr (codec_id : Nat) : Option String :=
  if codec_id = VP8_CODEC_ID then some kVp8CodecId
  else if codec_id = VP9_CODEC_ID then some kVp9CodecId
  else if codec_id = AV1_CODEC_ID then some kAv1CodecId
  else none

/-- The `switch(codec_id)` of `mux_segment_add_audio_track`. -/
def audioCodecStr (codec_id : Nat) : Option String :=
  if codec_id = OPUS_CODEC_ID then some kOpusCodecId
  else if codec_id = VORBIS_CODEC_ID then some kVorbisCodecId
  else none

/-- `mux_segment_add_video_track(segment, width, height, number, codec_id,
id_out)`: null segment fails; the `switch(codec_id)` maps
VP8/VP9/AV1 to their codec-ID strings and any other value to failure;
then `AddVideoTrack` runs, a zero id fails, and on success the track is
fetched by number, its codec id set, and `*id_out = id` stored.  Result:
the returned `MuxVideoTrackPtr` (the track it points at), the contents of
the `id_out` cell after the call, and the segment state after the call. -/
def mux_segment_add_video_track (segment : Option Segment)
    (width height number : Int) (codec_id : Nat) (id_out : Nat) :
    Option Track × Nat × Option Segment :=
  match segment with
  | none => (none, id_out, none)
  | some seg =>
    match videoCodecStr codec_id with
    | none => (none, id_out, some seg)
    | some codec_id_str =>
      let (id, seg) := seg.AddVideoTrack width height number
      if id = 0 then (none, id_out, some seg)
      else
        let video := seg.GetTrackByNumber id
        let seg := seg.updateTrack id (fun t => { t with codec_id := codec_id_str })
        (video.map (fun t => { t with codec_id := codec_id_str }), id, some seg)

/-- `mux_segment_add_audio_track(segment, sample_rate, channels, number,
codec_id)`: as the video variant, with the Opus/Vorbis `switch` — and no
`id_out` parameter at all: the allocated number is reported only through
the returned track pointer. -/
def mux_segment_add_audio_track (segment : Option Segment)
    (sample_rate channels number : Int) (codec_id : Nat) :
    Option Track × Option Segment :=
  match segment with
  | none => (none, none)
  | some seg =>
    match audioCodecStr codec_id with
    | none => (none, some seg)
    | some codec_id_str =>
      let (id, seg) := seg.AddAudioTrack sample_rate channels number
      if id = 0 then (none, some seg)
      else
        let audio := seg.GetTrackByNumber id
        let seg := seg.updateTrack id (fun t => { t with codec_id := codec_id_str })
        (audio.map (fun t => { t with codec_id := codec_id_str }), some seg)

/-- `mux_segment_add_frame(segment, track, frame, length, timestamp_ns,
keyframe)`: null segment or null track fails; otherwise
`segment->AddFrame(frame, length, track->number(), timestamp_ns, keyframe)`.
The C `bool` is the success of the spec-level result; the segment state
after the call is returned alongside. -/
def mux_segment_add_frame (segment : Option Segment) (track : Option Track)
    (frame : List Nat) (timestamp_ns : Nat) (keyframe : Bool) :
    Bool × Option Segment :=
  match segment, track with
  | none, _ => (false, segment)
  | _, none => (false, segment)
  | some seg, some t =>
    let (r, seg') := seg.AddFrame frame t.number timestamp_ns keyframe
    (r.toBool, some seg')

/-! ## Concrete values used by the witnesses -/

/-- A concrete write callback (accepts every buffer). -/
def wfun : WriteFun := fun _ => true

/-- A concrete position callback (always at offset 0). -/
def gfun : GetPositionFun := fun _ => 0

/-- A concrete seek callback (every seek succeeds). -/
def sfun : SetPositionFun := fun _ => true

/-! ## Claims about the sink (writer) construction and capabilities -/

/-- C5: Sink construction fails (yields no sink) if and only if the
mandatory write callback or the mandatory position callback is absent;
absence of the optional seek or element-start-notification callbacks never
causes construction to fail (they are universally quantified on the
right-hand side, which does not mention them). -/
theorem mux_new_writer_fails_iff_mandatory_missing
    (write : Option WriteFun) (get_position : Option GetPositionFun)
    (set_position : Option SetPositionFun)
    (element_start_notify : Option ElementStartNotifyFun) :
    mux_new_writer write get_position set_position element_start_notify = none ↔
      (write = none ∨ get_position = none) := by
  unfold mux_new_writer
  cases write <;> cases get_position <;> simp

/-- C6: a sink constructed by `mux_new_writer` reports itself seekable if
and only if a seek (set-position) callback was supplied at construction. -/
theorem seekable_iff_seek_callback_supplied
    (write : Option WriteFun) (get_position : Option GetPositionFun)
    (set_position : Option SetPositionFun)
    (element_start_notify : Option ElementStartNotifyFun) (w : FfiMkvWriter)
    (hw : mux_new_writer write get_position set_position element_start_notify = some w) :
    w.Seekable = set_position.isSome := by
  unfold mux_new_writer at hw
  cases write <;> cases get_position <;> simp at hw
  subst hw
  rfl

/-- Witness for C6: a sink built with both mandatory callbacks but no seek
callback reports itself non-seekable. -/
theorem seekable_iff_seek_callback_supplied_witness :
    FfiMkvWriter.Seekable
        { write_ := some wfun, get_position_ := some gfun,
          set_position_ := none, element_start_notify_ := none } =
      (none : Option SetPositionFun).isSome :=
  seekable_iff_seek_callback_supplied (some wfun) (some gfun) none none _ rfl

/-- C8: on a sink constructed without an element-start-notification
callback, `ElementStartNotify` is a no-op: it invokes no callback (the
call trace is returned unchanged), it returns no other value, and it never
fails. -/
theorem element_start_notify_absent_noop
    (write : Option WriteFun) (get_position : Option GetPositionFun)
    (set_position : Option SetPositionFun) (w : FfiMkvWriter)
    (element_id : Nat) (position : Int) (trace : List CallEvent)
    (hw : mux_new_writer write get_position set_position none = some w) :
    w.ElementStartNotify element_id position trace = trace := by
  unfold mux_new_writer at hw
  cases write <;> cases get_position <;> simp at hw
  subst hw
  rfl

/-- Witness for C8: on a concrete sink with no element-start hook, a
notification leaves a concrete trace unchanged. -/
theorem element_start_notify_absent_noop_witness :
    FfiMkvWriter.ElementStartNotify
        { write_ := some wfun, get_position_ := some gfun,
          set_position_ := some sfun, element_start_notify_ := none }
        5 12 [CallEvent.getPositionCall] = [CallEvent.getPositionCall] :=
  element_start_notify_absent_noop (some wfun) (some gfun) (some sfun) _ 5 12
    [CallEvent.getPositionCall] rfl

/-- C9: on a sink constructed without a seek callback, the seek entry
point `Position(int64)` returns the failure code 1 and invokes no
callback (the call trace is returned unchanged): the failure branch is
total, and the witness below shows it reachable. -/
theorem position_set_non_seekable_fails
    (write : Option WriteFun) (get_position : Option GetPositionFun)
    (element_start_notify : Option ElementStartNotifyFun) (w : FfiMkvWriter)
    (pos : Int) (trace : List CallEvent)
    (hw : mux_new_writer write get_position none element_start_notify = some w) :
    w.PositionSet pos trace = (1, trace) := by
  unfold mux_new_writer at hw
  cases write <;> cases get_position <;> simp at hw
  subst hw
  rfl

/-- Witness for C9: a concrete non-seekable sink rejects a concrete seek
with code 1 and an unchanged trace. -/
theorem position_set_non_seekable_fails_witness :
    FfiMkvWriter.PositionSet
        { write_ := some wfun, get_position_ := some gfun,
          set_position_ := none, element_start_notify_ := none }
        42 [] = (1, []) :=
  position_set_non_seekable_fails (some wfun) (some gfun) none _ 42 [] rfl

/-! ## Helper lemmas about the track registry -/

/-- `hasTrack` agrees with `GetTrackByNumber` succeeding. -/
theorem Segment.hasTrack_eq (seg : Segment) (n : Nat) :
    seg.hasTrack n = (seg.GetTrackByNumber n).isSome := by
  unfold Segment.hasTrack Segment.GetTrackByNumber
  induction seg.tracks with
  | nil => rfl
  | cons t ts ih =>
    cases h : (t.number == n) <;>
      simp [List.any_cons, List.find?_cons, h, ih]

/-- Every element of a list of naturals is at most its `foldr max 0`. -/
theorem le_foldr_max (l : List Nat) (x : Nat) (hx : x ∈ l) :
    x ≤ l.foldr max 0 := by
  induction l with
  | nil => cases hx
  | cons a l ih =>
    rcases List.mem_cons.mp hx with rfl | hmem
    · exact le_max_left _ _
    · exact le_trans (ih hmem) (le_max_right _ _)

/-- The auto-assigned next track number collides with no registered
track. -/
theorem Segment.hasTrack_nextTrackNumber (seg : Segment) :
    seg.hasTrack seg.nextTrackNumber = false := by
  unfold Segment.hasTrack
  by_contra hne
  rw [Bool.not_eq_false, List.any_eq_true] at hne
  obtain ⟨t, hmem, heq⟩ := hne
  have hle : t.number ≤ (seg.tracks.map Track.number).foldr max 0 :=
    le_foldr_max _ _ (List.mem_map_of_mem Track.number hmem)
  have heq' : t.number = seg.nextTrackNumber := by simpa using heq
  rw [heq'] at hle
  unfold Segment.nextTrackNumber at hle
  omega

/-- Appending a matching element to a list in which `find?` fails makes
`find?` return exactly that element. -/
theorem find?_append_of_none {α : Type} (p : α → Bool) (l : List α) (t : α)
    (hnone : l.find? p = none) (ht : p t = true) :
    (l ++ [t]).find? p = some t := by
  induction l with
  | nil => simp [List.find?, ht]
  | cons a l ih =>
    cases ha : p a with
    | true => simp [List.find?_cons, ha] at hnone
    | false =>
      rw [List.find?_cons_of_neg _ (by simp [ha])] at hnone
      simpa [List.find?_cons, ha] using ih hnone

/-- The newly appended track record of a successful `addTrack`. -/
def freshTrack (num : Nat) (iv : Bool) : Track :=
  { number := num, isVideo := iv, codec_id := "",
    codecPrivate := [], framesWritten := 0, lastTicks := none }

/-- The number `addTrack` allocates when it does not fail. -/
def Segment.allocNum (seg : Segment) (number : Int) : Nat :=
  if number.toNat = 0 then seg.nextTrackNumber else number.toNat

/-- On the non-failing path, `addTrack` appends exactly the fresh track
under the allocated number. -/
theorem Segment.addTrack_eq_of_ok (seg : Segment) (number : Int) (iv : Bool)
    (hneg : ¬ number < 0)
    (hfree : (number.toNat != 0 && seg.hasTrack number.toNat) = false) :
    seg.addTrack number iv =
      (seg.allocNum number,
       { seg with tracks := seg.tracks ++ [freshTrack (seg.allocNum number) iv] }) := by
  unfold Segment.addTrack allocNum freshTrack
  simp [hneg, hfree]

/-- `GetTrackByNumber` fails exactly on numbers with no registered
track. -/
theorem Segment.getTrack_eq_none_of_hasTrack_false (seg : Segment) (n : Nat)
    (h : seg.hasTrack n = false) : seg.GetTrackByNumber n = none := by
  have heq := seg.hasTrack_eq n
  rw [h] at heq
  exact Option.not_isSome_iff_eq_none.mp (by simp [← heq])

/-- The allocated number of a non-failing `addTrack` is free in the old
registry. -/
theorem Segment.allocNum_free (seg : Segment) (number : Int)
    (hfree : (number.toNat != 0 && seg.hasTrack number.toNat) = false) :
    seg.hasTrack (seg.allocNum number) = false := by
  unfold allocNum
  by_cases hz : number.toNat = 0
  · simp only [if_pos hz]
    exact seg.hasTrack_nextTrackNumber
  · simp only [if_neg hz]
    cases hh : seg.hasTrack number.toNat with
    | false => rfl
    | true =>
      exfalso
      rw [hh] at hfree
      simp [hz] at hfree

/-- After a successful `addTrack`, looking the allocated number up finds
the freshly appended track, which carries that number. -/
theorem Segment.addTrack_lookup (seg : Segment) (number : Int) (iv : Bool)
    (hneg : ¬ number < 0)
    (hfree : (number.toNat != 0 && seg.hasTrack number.toNat) = false) :
    (seg.addTrack number iv).2.GetTrackByNumber (seg.addTrack number iv).1 =
      some (freshTrack (seg.allocNum number) iv) := by
  rw [seg.addTrack_eq_of_ok number iv hneg hfree]
  show (seg.tracks ++ [freshTrack (seg.allocNum number) iv]).find? _ = _
  refine find?_append_of_none _ _ _ ?_ (by simp [freshTrack])
  have hnone := seg.getTrack_eq_none_of_hasTrack_false _ (seg.allocNum_free number hfree)
  exact hnone

/-! ## Concrete segment states used by witnesses and counterexamples -/

/-- A registered track with no frames written yet. -/
def trackFresh : Track :=
  { number := 1, isVideo := true, codec_id := "V_VP9", codecPrivate := [],
    framesWritten := 0, lastTicks := none }

/-- The same track after one frame has been written. -/
def trackStreaming : Track :=
  { trackFresh with framesWritten := 1, lastTicks := some 0 }

/-- An initialized segment holding one fresh track. -/
def segFresh : Segment :=
  { Segment.new with inited := true, tracks := [trackFresh] }

/-- An initialized segment whose only track is already streaming. -/
def segStreaming : Segment :=
  { Segment.new with inited := true, tracks := [trackStreaming] }

/-- A segment holding a track but never initialized. -/
def segNotInited : Segment :=
  { Segment.new with tracks := [trackFresh] }

/-- An initialized segment that has already been finalized. -/
def segFinalized : Segment :=
  { segFresh with finalized := true }

/-- A segment state reached by actual operations: create, init, add a VP9
video track, append one frame at 7,000,000 ns (7 ticks at the default
scale). -/
def segDemo : Segment :=
  let seg := mux_new_segment.Init.2
  let seg := ((mux_segment_add_video_track (some seg) 640 480 0 VP9_CODEC_ID 0).2.2).getD seg
  (seg.AddFrame [0] 1 7000000 true).2

/-! ## C1: the duration override at finalization -/

/-- C1 counterexample: the claim says `finalize(Some(d))` persists exactly
`d` for every `d` the caller may pass, but the shim's `uint64_t` parameter
encodes the absent override as 0 (`if (timeCodeDuration)`), so the
override `Some(0)` is dropped: on a segment whose observed maximum is 7
ticks, finalizing with override `some 0` persists 7, not 0. -/
theorem finalize_override_zero_counterexample :
    (finalize segDemo (some 0)).2.durationTicks = some 7 ∧
    (finalize segDemo (some 0)).2.durationTicks ≠ some 0 := by
  refine ⟨by decide, by decide⟩

/-- C1 (amended): for every nonzero override `d`, `mux_finalize_segment`
persists exactly `d` regardless of the observed timestamps; the parameter
value 0 is the encoding of "no override" and leaves the segment to
finalize from its observed timestamps. -/
theorem mux_finalize_override_amended (seg : Segment) (d : Nat) :
    (d ≠ 0 → (mux_finalize_segment seg d).2.durationTicks = some d) ∧
    mux_finalize_segment seg 0 = seg.Finalize := by
  constructor
  · intro hd
    unfold mux_finalize_segment Segment.set_duration Segment.Finalize
    by_cases hf : seg.finalized <;> simp [hd, hf]
  · unfold mux_finalize_segment
    simp

/-- Witness for C1 (amended): finalizing `segDemo` (observed maximum 7)
with the nonzero override 9 persists exactly 9, and the zero parameter is
a plain `Finalize`. -/
theorem mux_finalize_override_amended_witness :
    (mux_finalize_segment segDemo 9).2.durationTicks = some 9 ∧
    mux_finalize_segment segDemo 0 = segDemo.Finalize :=
  ⟨(mux_finalize_override_amended segDemo 9).1 (by decide),
   (mux_finalize_override_amended segDemo 0).2⟩

/-! ## C2: set_codec_private error discrimination -/

/-- C2: `set_codec_private` fails with `UnknownTrack` when the handle
names no registered track, fails with `TrackAlreadyStreaming` whenever at
least one frame has been written for the track (each failure leaving the
segment unchanged), and succeeds exactly when the track exists and has no
frames written. -/
theorem set_codec_private_errors (seg : Segment) (n : Nat) (data : List Nat) :
    (seg.hasTrack n = false →
        set_codec_private seg n data = (Except.error MuxError.UnknownTrack, seg)) ∧
    (∀ t, seg.GetTrackByNumber n = some t → t.framesWritten ≠ 0 →
        set_codec_private seg n data =
          (Except.error MuxError.TrackAlreadyStreaming, seg)) ∧
    ((set_codec_private seg n data).1 = Except.ok () ↔
        ∃ t, seg.GetTrackByNumber n = some t ∧ t.framesWritten = 0) := by
  refine ⟨?_, ?_, ?_⟩
  · intro hfalse
    have hg := seg.getTrack_eq_none_of_hasTrack_false n hfalse
    unfold set_codec_private
    rw [hg]
  · intro t hg hfw
    unfold set_codec_private
    rw [hg]
    simp [hfw]
  · unfold set_codec_private
    cases hg : seg.GetTrackByNumber n with
    | none => simp
    | some t =>
      by_cases hfw : t.framesWritten = 0
      · simp [hfw]
      · simp [hfw]

/-- Witness for C2: on concrete segments, a stale handle yields
`UnknownTrack`, a streaming track yields `TrackAlreadyStreaming`, and a
fresh track accepts the blob. -/
theorem set_codec_private_errors_witness :
    set_codec_private Segment.new 1 [1, 2] =
        (Except.error MuxError.UnknownTrack, Segment.new) ∧
    set_codec_private segStreaming 1 [1, 2] =
        (Except.error MuxError.TrackAlreadyStreaming, segStreaming) ∧
    (set_codec_private segFresh 1 [1, 2]).1 = Except.ok () :=
  ⟨(set_codec_private_errors Segment.new 1 [1, 2]).1 rfl,
   (set_codec_private_errors segStreaming 1 [1, 2]).2.1 trackStreaming rfl (by decide),
   (set_codec_private_errors segFresh 1 [1, 2]).2.2.mpr ⟨trackFresh, rfl, rfl⟩⟩

/-! ## C7: add_frame failure cases -/

/-- C7: `AddFrame` fails with `UnknownTrack` when the track number is not
registered, with `SegmentNotInitialized` when `Init` never ran (for a
registered track), and with `SegmentFinalized` when finalize already ran
(for a registered track on an initialized segment); in each failure case
the segment state is returned unchanged — no frame is written. -/
theorem add_frame_failure_cases (seg : Segment) (payload : List Nat)
    (tn ts : Nat) (kf : Bool) :
    (seg.hasTrack tn = false →
        seg.AddFrame payload tn ts kf = (Except.error MuxError.UnknownTrack, seg)) ∧
    (seg.hasTrack tn = true → seg.inited = false →
        seg.AddFrame payload tn ts kf =
          (Except.error MuxError.SegmentNotInited, seg)) ∧
    (seg.hasTrack tn = true → seg.inited = true → seg.finalized = true →
        seg.AddFrame payload tn ts kf =
          (Except.error MuxError.SegmentFinalized, seg)) := by
  refine ⟨?_, ?_, ?_⟩
  · intro hfalse
    have hg := seg.getTrack_eq_none_of_hasTrack_false tn hfalse
    unfold Segment.AddFrame
    rw [hg]
  · intro htrue hi
    obtain ⟨t, hg⟩ := Option.isSome_iff_exists.mp (by rw [← seg.hasTrack_eq]; exact htrue)
    unfold Segment.AddFrame
    rw [hg]
    simp [hi]
  · intro htrue hi hf
    obtain ⟨t, hg⟩ := Option.isSome_iff_exists.mp (by rw [← seg.hasTrack_eq]; exact htrue)
    unfold Segment.AddFrame
    rw [hg]
    simp [hi, hf]

/-- Witness for C7: the three failure cases at concrete segment states,
each leaving the state unchanged. -/
theorem add_frame_failure_cases_witness :
    Segment.AddFrame Segment.new [0] 1 0 true =
        (Except.error MuxError.UnknownTrack, Segment.new) ∧
    Segment.AddFrame segNotInited [0] 1 0 true =
        (Except.error MuxError.SegmentNotInited, segNotInited) ∧
    Segment.AddFrame segFinalized [0] 1 0 true =
        (Except.error MuxError.SegmentFinalized, segFinalized) :=
  ⟨(add_frame_failure_cases Segment.new [0] 1 0 true).1 rfl,
   (add_frame_failure_cases segNotInited [0] 1 0 true).2.1 rfl rfl,
   (add_frame_failure_cases segFinalized [0] 1 0 true).2.2 rfl rfl rfl⟩

/-! ## Further helper lemmas for the add-track entry points -/

/-- A non-failing `addTrack` is exactly the fresh append under the
allocated number (derived form of `addTrack_eq_of_ok` whose hypothesis is
just the non-zero result). -/
theorem Segment.addTrack_ok (seg : Segment) (number : Int) (iv : Bool)
    (hid : (seg.addTrack number iv).1 ≠ 0) :
    seg.addTrack number iv =
      (seg.allocNum number,
       { seg with tracks := seg.tracks ++ [freshTrack (seg.allocNum number) iv] }) := by
  by_cases hneg : number < 0
  · exfalso; apply hid; simp [Segment.addTrack, hneg]
  · cases hfree : (number.toNat != 0 && seg.hasTrack number.toNat) with
    | true => exfalso; apply hid; simp [Segment.addTrack, hneg, hfree]
    | false => exact seg.addTrack_eq_of_ok number iv hneg hfree

/-- The allocated number of a non-failing `addTrack` is never 0. -/
theorem Segment.allocNum_ne_zero (seg : Segment) (number : Int) (iv : Bool)
    (hid : (seg.addTrack number iv).1 ≠ 0) : seg.allocNum number ≠ 0 := by
  have h := seg.addTrack_ok number iv hid
  intro hz
  apply hid
  rw [h, hz]

/-- After a non-failing `addTrack`, the allocated number looks up to the
fresh track. -/
theorem Segment.addTrack_ok_lookup (seg : Segment) (number : Int) (iv : Bool)
    (hid : (seg.addTrack number iv).1 ≠ 0) :
    (seg.addTrack number iv).2.GetTrackByNumber (seg.addTrack number iv).1 =
      some (freshTrack (seg.allocNum number) iv) := by
  by_cases hneg : number < 0
  · exfalso; apply hid; simp [Segment.addTrack, hneg]
  · cases hfree : (number.toNat != 0 && seg.hasTrack number.toNat) with
    | true => exfalso; apply hid; simp [Segment.addTrack, hneg, hfree]
    | false => exact seg.addTrack_lookup number iv hneg hfree

/-- The video `switch` recognizes exactly VP8, VP9 and AV1. -/
theorem videoCodecStr_ne_none_iff (c : Nat) :
    videoCodecStr c ≠ none ↔
      (c = VP8_CODEC_ID ∨ c = VP9_CODEC_ID ∨ c = AV1_CODEC_ID) := by
  unfold videoCodecStr VP8_CODEC_ID VP9_CODEC_ID AV1_CODEC_ID
  by_cases h0 : c = 0 <;> by_cases h1 : c = 1 <;> by_cases h2 : c = 2 <;>
    simp [h0, h1, h2]

/-! ## C3: unrecognized codec identifiers are hard errors -/

/-- C3: for every numeric codec identifier outside the recognized set
(video: VP8, VP9, AV1; audio: Opus, Vorbis), the add-track entry point
returns a null handle and leaves the segment exactly as it was: no track
is registered and no default codec is substituted. -/
theorem add_track_unrecognized_codec_fails (seg : Segment)
    (wd hgt n sr ch : Int) (c : Nat) (out : Nat) :
    (c ≠ VP8_CODEC_ID → c ≠ VP9_CODEC_ID → c ≠ AV1_CODEC_ID →
        mux_segment_add_video_track (some seg) wd hgt n c out =
          (none, out, some seg)) ∧
    (c ≠ OPUS_CODEC_ID → c ≠ VORBIS_CODEC_ID →
        mux_segment_add_audio_track (some seg) sr ch n c = (none, some seg)) := by
  constructor
  · intro h0 h1 h2
    have hv : videoCodecStr c = none := by
      unfold videoCodecStr
      simp [h0, h1, h2]
    unfold mux_segment_add_video_track
    rw [hv]
  · intro h0 h1
    have ha : audioCodecStr c = none := by
      unfold audioCodecStr
      simp [h0, h1]
    unfold mux_segment_add_audio_track
    rw [ha]

/-- Witness for C3: the unrecognized identifier 99 is rejected by both
entry points on a concrete segment, which is left unchanged. -/
theorem add_track_unrecognized_codec_fails_witness :
    mux_segment_add_video_track (some segFresh) 640 480 0 99 5 =
        (none, 5, some segFresh) ∧
    mux_segment_add_audio_track (some segFresh) 48000 2 0 99 =
        (none, some segFresh) :=
  ⟨(add_track_unrecognized_codec_fails segFresh 640 480 0 48000 2 99 5).1
      (by decide) (by decide) (by decide),
   (add_track_unrecognized_codec_fails segFresh 640 480 0 48000 2 99 5).2
      (by decide) (by decide)⟩

/-! ## C4: the fixed codec-identifier-to-string mapping -/

/-- Any track handle returned by the video entry point under `switch`
result `s` carries codec-ID string `s`. -/
theorem video_track_codec_assigned (seg : Segment) (wd hgt n : Int)
    (c out : Nat) (s : String) (hs : videoCodecStr c = some s) (t : Track)
    (h : (mux_segment_add_video_track (some seg) wd hgt n c out).1 = some t) :
    t.codec_id = s := by
  simp only [mux_segment_add_video_track, hs] at h
  rcases hadd : seg.AddVideoTrack wd hgt n with ⟨id, seg'⟩
  simp only [hadd] at h
  by_cases hid : id = 0
  · simp [hid] at h
  · simp only [if_neg hid] at h
    rcases Option.map_eq_some'.mp (by simpa using h) with ⟨u, _, hu⟩
    rw [← hu]

/-- Any track handle returned by the audio entry point under `switch`
result `s` carries codec-ID string `s`. -/
theorem audio_track_codec_assigned (seg : Segment) (sr ch n : Int)
    (c : Nat) (s : String) (hs : audioCodecStr c = some s) (t : Track)
    (h : (mux_segment_add_audio_track (some seg) sr ch n c).1 = some t) :
    t.codec_id = s := by
  simp only [mux_segment_add_audio_track, hs] at h
  rcases hadd : seg.AddAudioTrack sr ch n with ⟨id, seg'⟩
  simp only [hadd] at h
  by_cases hid : id = 0
  · simp [hid] at h
  · simp only [if_neg hid] at h
    rcases Option.map_eq_some'.mp (by simpa using h) with ⟨u, _, hu⟩
    rw [← hu]

/-- C4: each recognized codec identifier deterministically maps to the
format's fixed codec-ID string constant — every track the video entry
point creates under VP8/VP9/AV1 carries `V_VP8`/`V_VP9`/`V_AV1`, every
track the audio entry point creates under Opus/Vorbis carries
`A_OPUS`/`A_VORBIS` — and the five string constants are pairwise
distinct, so the video and audio codings are distinct. -/
theorem add_track_codec_id_mapping (seg : Segment) (wd hgt n sr ch : Int)
    (out : Nat) :
    (∀ t, (mux_segment_add_video_track (some seg) wd hgt n VP8_CODEC_ID out).1 =
        some t → t.codec_id = kVp8CodecId) ∧
    (∀ t, (mux_segment_add_video_track (some seg) wd hgt n VP9_CODEC_ID out).1 =
        some t → t.codec_id = kVp9CodecId) ∧
    (∀ t, (mux_segment_add_video_track (some seg) wd hgt n AV1_CODEC_ID out).1 =
        some t → t.codec_id = kAv1CodecId) ∧
    (∀ t, (mux_segment_add_audio_track (some seg) sr ch n OPUS_CODEC_ID).1 =
        some t → t.codec_id = kOpusCodecId) ∧
    (∀ t, (mux_segment_add_audio_track (some seg) sr ch n VORBIS_CODEC_ID).1 =
        some t → t.codec_id = kVorbisCodecId) ∧
    List.Pairwise (fun a b => a ≠ b)
      [kVp8CodecId, kVp9CodecId, kAv1CodecId, kOpusCodecId, kVorbisCodecId] :=
  ⟨fun t h =>
      video_track_codec_assigned seg wd hgt n VP8_CODEC_ID out kVp8CodecId rfl t h,
   fun t h =>
      video_track_codec_assigned seg wd hgt n VP9_CODEC_ID out kVp9CodecId rfl t h,
   fun t h =>
      video_track_codec_assigned seg wd hgt n AV1_CODEC_ID out kAv1CodecId rfl t h,
   fun t h =>
      audio_track_codec_assigned seg sr ch n OPUS_CODEC_ID kOpusCodecId rfl t h,
   fun t h =>
      audio_track_codec_assigned seg sr ch n VORBIS_CODEC_ID kVorbisCodecId rfl t h,
   by simp [kVp8CodecId, kVp9CodecId, kAv1CodecId, kOpusCodecId, kVorbisCodecId]⟩

/-- Witness for C4: adding a VP8 video track and an Opus audio track to a
fresh segment yields handles carrying exactly `V_VP8` and `A_OPUS`. -/
theorem add_track_codec_id_mapping_witness :
    (Track.codec_id { number := 2, isVideo := true, codec_id := kVp8CodecId,
                      codecPrivate := [], framesWritten := 0,
                      lastTicks := none } = kVp8CodecId) ∧
    (Track.codec_id { number := 2, isVideo := false, codec_id := kOpusCodecId,
                      codecPrivate := [], framesWritten := 0,
                      lastTicks := none } = kOpusCodecId) :=
  ⟨(add_track_codec_id_mapping segFresh 640 480 0 48000 2 7).1 _ rfl,
   (add_track_codec_id_mapping segFresh 640 480 0 48000 2 7).2.2.2.1 _ rfl⟩

/-! ## C10: the id_out out-parameter contract of the video entry point -/

/-- C10: the video entry point writes the `id_out` cell exactly when the
call succeeds: on every failure path (null segment, unrecognized codec,
zero allocated id) the cell is returned unchanged, and on success it holds
exactly the returned track's non-zero number; success happens precisely
for a non-null segment, a recognized codec, and a non-zero allocated id.
(The audio entry point `mux_segment_add_audio_track`, like its C
original, carries no out parameter in its signature at all, so it reports
the allocated number through no out-parameter — only through the returned
handle.) -/
theorem add_video_track_id_out_contract (seg? : Option Segment)
    (wd hgt n : Int) (c out : Nat) :
    ((mux_segment_add_video_track seg? wd hgt n c out).1 = none →
        (mux_segment_add_video_track seg? wd hgt n c out).2.1 = out) ∧
    (∀ t, (mux_segment_add_video_track seg? wd hgt n c out).1 = some t →
        (mux_segment_add_video_track seg? wd hgt n c out).2.1 = t.number ∧
        t.number ≠ 0) ∧
    ((mux_segment_add_video_track seg? wd hgt n c out).1.isSome = true ↔
        ∃ seg, seg? = some seg ∧
          (c = VP8_CODEC_ID ∨ c = VP9_CODEC_ID ∨ c = AV1_CODEC_ID) ∧
          (seg.AddVideoTrack wd hgt n).1 ≠ 0) := by
  cases seg? with
  | none => simp [mux_segment_add_video_track]
  | some seg =>
    cases hv : videoCodecStr c with
    | none =>
      have hrec : ¬(c = VP8_CODEC_ID ∨ c = VP9_CODEC_ID ∨ c = AV1_CODEC_ID) := by
        rw [← videoCodecStr_ne_none_iff]
        simp [hv]
      simp [mux_segment_add_video_track, hv, hrec]
    | some s =>
      have hrec : (c = VP8_CODEC_ID ∨ c = VP9_CODEC_ID ∨ c = AV1_CODEC_ID) := by
        rw [← videoCodecStr_ne_none_iff]
        simp [hv]
      rcases hadd : seg.AddVideoTrack wd hgt n with ⟨id, seg'⟩
      by_cases hid : id = 0
      · subst hid
        simp [mux_segment_add_video_track, hv, hadd, hrec]
      · have haddt : seg.addTrack n true = (id, seg') := hadd
        have hid' : (seg.addTrack n true).1 ≠ 0 := by rw [haddt]; exact hid
        have hok := seg.addTrack_ok n true hid'
        rw [haddt] at hok
        have hidnum : id = seg.allocNum n := congrArg Prod.fst hok
        have hlook := seg.addTrack_ok_lookup n true hid'
        rw [haddt] at hlook
        have hres : mux_segment_add_video_track (some seg) wd hgt n c out =
            (some { freshTrack (seg.allocNum n) true with codec_id := s }, id,
             some (seg'.updateTrack id (fun t => { t with codec_id := s }))) := by
          simp only [mux_segment_add_video_track, hv, hadd, if_neg hid]
          rw [hlook]
          rfl
        refine ⟨?_, ?_, ?_⟩
        · rw [hres]
          intro hcontra
          cases hcontra
        · intro t ht
          rw [hres] at ht ⊢
          have ht' : ({ freshTrack (seg.allocNum n) true with codec_id := s } : Track) = t :=
            Option.some.inj ht
          rw [← ht']
          exact ⟨hidnum, seg.allocNum_ne_zero n true hid'⟩
        · rw [hres]
          constructor
          · intro _
            exact ⟨seg, rfl, hrec, by rw [hadd]; exact hid⟩
          · intro _
            rfl

/-- Witness for C10: on a failed call (unrecognized codec 99) the cell
keeps its old value 5; on a successful VP8 call on a fresh segment the
cell holds the returned track's number 1, which is non-zero; and the
success characterization holds at that call. -/
theorem add_video_track_id_out_contract_witness :
    (mux_segment_add_video_track (some segFresh) 640 480 0 99 5).2.1 = 5 ∧
    ((mux_segment_add_video_track (some Segment.new) 640 480 0 VP8_CODEC_ID 5).2.1 =
        Track.number { number := 1, isVideo := true, codec_id := kVp8CodecId,
                       codecPrivate := [], framesWritten := 0, lastTicks := none } ∧
     Track.number { number := 1, isVideo := true, codec_id := kVp8CodecId,
                    codecPrivate := [], framesWritten := 0, lastTicks := none } ≠ 0) ∧
    (mux_segment_add_video_track (some Segment.new) 640 480 0 VP8_CODEC_ID 5).1.isSome =
        true :=
  ⟨(add_video_track_id_out_contract (some segFresh) 640 480 0 99 5).1 rfl,
   (add_video_track_id_out_contract (some Segment.new) 640 480 0 VP8_CODEC_ID 5).2.1 _ rfl,
   (add_video_track_id_out_contract (some Segment.new) 640 480 0 VP8_CODEC_ID 5).2.2.mpr
     ⟨Segment.new, rfl, Or.inl rfl, by decide⟩⟩
